import Mathlib

/-!
Verification of the Soca-Scores ETL pipeline against its specification.

The development shallowly embeds the three pipeline stages of the repository:

* `data_ingestion.py` — `DataIngestion.load_csv`, `DataIngestion.combine_dataframes`;
* `data_cleaning.py` — `DataCleaning.remove_betting_features`,
  `DataCleaning.handle_missing_data`, `DataCleaning.declare_dtypes_early`;
* `db_creation_and_initial_insertion.py` — `DatabaseInsertion.prepare_data`,
  `DatabaseInsertion.insert_data`.

A pandas `DataFrame` is modelled as a list of column names together with a
list of rows; a cell is `Option String` (`none` is a missing value, `NaN`).
Numeric and date values produced by the standardization stage are rendered
back into canonical strings, which preserves exactly the structure the
specification speaks about (missingness, parse failures, column selection,
ordering).  Rational arithmetic (`ℚ`) stands in for the float arithmetic of
the source; the percentage computations involved are exact in the cases the
specification quantifies over.
-/

/-- A pandas DataFrame: ordered column names and rows of cells, where a cell
is `none` when the value is missing (`NaN`/`NA`). -/
structure DF where
  cols : List String
  rows : List (List (Option String))
deriving DecidableEq

/-- Index of the first occurrence of column `c` in `cols` (the length of
`cols` when absent), mirroring positional lookup of a pandas column label. -/
def colIdx : List String → String → Nat
  | [], _ => 0
  | x :: xs, c => if x = c then 0 else colIdx xs c + 1

/-- Value of column `c` in `row` (`none` when the column is absent or the
cell is missing). -/
def cellAt (cols : List String) (row : List (Option String)) (c : String) : Option String :=
  match row[colIdx cols c]? with
  | some v => v
  | none => none

/-- The full column `c` of a table, top to bottom. -/
def colCells (df : DF) (c : String) : List (Option String) :=
  df.rows.map (fun row => cellAt df.cols row c)

/-- Projection of a table onto the column list `keep`
(pandas `df.loc[:, keep]` / `df[keep]`). -/
def selectCols (df : DF) (keep : List String) : DF :=
  { cols := keep, rows := df.rows.map (fun row => keep.map (fun c => cellAt df.cols row c)) }

/-- `DataCleaningConfig.critical_columns`. -/
def criticalColumns : List String := ["HomeTeam", "AwayTeam", "Date", "FTHG", "FTAG"]

/-- `DataCleaningConfig.string_columns`. -/
def stringColumns : List String :=
  ["HomeTeam", "AwayTeam", "FTR", "HTR", "Referee", "Month", "Day"]

/-- `DataCleaningConfig.numeric_columns`. -/
def numericColumns : List String :=
  ["FTHG", "FTAG", "HTHG", "HTAG", "HS", "HST", "AST", "HF", "AF", "HC", "AC",
   "HY", "AY", "HR", "AR", "Year"]

/-- Number of missing values in column `c`
(`enhanced_data.isnull().sum()` for one column). -/
def missingCount (df : DF) (c : String) : Nat :=
  (colCells df c).countP (fun v => v.isNone)

/-- Missing-value percentage of column `c`:
`(enhanced_data.isnull().sum() / len(enhanced_data)) * 100`.  Written as the
integer quotient `(count * 100) / len` of rationals; the theorem
`missingPercent_eq` shows it equals the source's `(count / len) * 100`. -/
def missingPercent (df : DF) (c : String) : ℚ :=
  Rat.divInt (missingCount df c * 100) df.rows.length

/-- Step 2, first half: drop every column whose missing percentage strictly
exceeds `threshold`
(`cols_to_drop = missing_percent[missing_percent > threshold].index;`
`enhanced_data.drop(columns=cols_to_drop)`). -/
def dropSparseColumns (df : DF) (threshold : ℚ) : DF :=
  selectCols df (df.cols.filter (fun c => !(decide (missingPercent df c > threshold))))

/-- Whether a row has a non-missing value in every critical column
(the per-row predicate of `dropna(subset=critical_columns)`). -/
def rowCriticalOk (cols : List String) (row : List (Option String)) : Bool :=
  criticalColumns.all (fun c => (cellAt cols row c).isSome)

/-- `DataCleaning.handle_missing_data` (Step 2): drop sparse columns, then
drop rows missing a critical value.  `dropna(subset=...)` raises a
`KeyError` — wrapped into a `CustomException` — when one of the critical
columns is not present in the table, which the `Except.error` branch
models. -/
def handle_missing_data (df : DF) (threshold : ℚ) : Except String DF :=
  let d := dropSparseColumns df threshold
  if criticalColumns.all (fun c => decide (c ∈ d.cols)) then
    .ok { cols := d.cols, rows := d.rows.filter (fun row => rowCriticalOk d.cols row) }
  else
    .error "KeyError"

/-- ASCII-faithful model of Python `str.lower()` (`String.toLower` of the
source flag strings). -/
def lowerStr (s : String) : String :=
  String.mk (s.toList.map Char.toLower)

/-- Model of pandas `Series.unique()`: first occurrences, in order. -/
def uniqueKeepFirst (seen : List String) : List String → List String
  | [] => []
  | x :: xs => if x ∈ seen then uniqueKeepFirst seen xs else x :: uniqueKeepFirst (x :: seen) xs

/-- Step 1 selection set:
`catalog[catalog['Betting_odd'].astype(str).str.lower().isin(['false'])]['Feature_name'].unique()`.
A catalog entry is a `(Feature_name, Betting_odd)` pair with the flag in its
textual form. -/
def keepFeatureNames (catalog : List (String × String)) : List String :=
  uniqueKeepFirst [] ((catalog.filter (fun e => lowerStr e.2 == "false")).map (fun e => e.1))

/-- `DataCleaning.remove_betting_features` (Step 1):
`ingested_data_df.loc[:, ingested_data_df.columns.isin(feature_names_to_keep)]`. -/
def remove_betting_features (catalog : List (String × String)) (df : DF) : DF :=
  selectCols df (df.cols.filter (fun c => decide (c ∈ keepFeatureNames catalog)))

/-- Union of the column sets of a list of tables, in order of first
appearance — the column set `pd.concat` produces. -/
def unionCols (dfs : List DF) : List String :=
  dfs.foldl (fun acc df => acc ++ df.cols.filter (fun c => decide (c ∉ acc))) []

/-- `pd.concat(dataframes, ignore_index=True)`: all rows in source order,
each aligned to the union of the column sets, missing columns filled with
missing values. -/
def concatDF (dfs : List DF) : DF :=
  { cols := unionCols dfs,
    rows := (dfs.map (fun df =>
      df.rows.map (fun row => (unionCols dfs).map (fun c => cellAt df.cols row c)))).flatten }

/-- `DataIngestion.combine_dataframes`: concatenate, then
`final_df.drop('Div', axis=1)` — which raises a `KeyError` (wrapped into a
`CustomException`) when no `Div` column exists, since the call does not pass
`errors='ignore'`. -/
def combine_dataframes (dfs : List DF) : Except String DF :=
  let f := concatDF dfs
  if "Div" ∈ f.cols then
    .ok (selectCols f (f.cols.filter (fun c => decide (c ≠ "Div"))))
  else
    .error "KeyError"

/-- Number of rows contributed by the first `i` tables, the row offset of
table `i` in the concatenation. -/
def rowsBefore (dfs : List DF) (i : Nat) : Nat :=
  ((dfs.take i).map (fun df => df.rows.length)).sum

/-- Outcome of `DataIngestion.load_csv`: a loaded table, a raise of the
tagged `CustomException`, or a raise of an untagged Python error. -/
inductive LoadOutcome where
  | ok (urls : DF)
  | tagged (msg : String)
  | untagged (msg : String)
deriving DecidableEq

/-- `DataIngestion.load_csv` of `src/components/data_ingestion.py`, as a
function of the environment: whether the catalog file exists, and the result
of reading it.  Inside the `try`-block, an existing file is read
(`pd.read_csv`); a read failure is caught and re-raised as the tagged
`CustomException`.  A missing file only logs, so the `return urls` after the
`try`-block hits the unbound local `urls` and raises an untagged
`NameError`. -/
def load_csv (csvFileExists : Bool) (readCsv : Except String DF) : LoadOutcome :=
  if csvFileExists then
    match readCsv with
    | .ok urls => .ok urls
    | .error e => .tagged e
  else
    .untagged "NameError"

/-- Single-table input for the union whose concatenation has no `Div`
column. -/
def dfsC4 : List DF := [{ cols := ["A"], rows := [[some "1"]] }]

/-- Concrete table for the `load_csv` counterexample. -/
def dfC5 : DF := { cols := ["Season_ID"], rows := [[some "2021"]] }

/-- Value of a nonempty all-digit character sequence, the accepted form of
an unsigned decimal integer. -/
def digitsToNat (cs : List Char) : Option Nat :=
  if cs.isEmpty then none
  else if cs.all Char.isDigit then some (cs.foldl (fun a c => 10 * a + (c.toNat - 48)) 0)
  else none

/-- Split a character sequence at every occurrence of `sep`. -/
def splitOnChar (sep : Char) : List Char → List (List Char)
  | [] => [[]]
  | c :: rest =>
    if c = sep then [] :: splitOnChar sep rest
    else
      match splitOnChar sep rest with
      | [] => [[c]]
      | g :: gs => (c :: g) :: gs

/-- Drop surrounding whitespace (Python `str.strip()`). -/
def trimChars (cs : List Char) : List Char :=
  ((cs.dropWhile Char.isWhitespace).reverse.dropWhile Char.isWhitespace).reverse

/-- Unsigned decimal numeral, with an optional fractional part, as an exact
rational. -/
def parseUnsignedQ (cs : List Char) : Option ℚ :=
  match splitOnChar '.' cs with
  | [intPart] => (digitsToNat intPart).map (fun n => Rat.divInt n 1)
  | [intPart, fracPart] =>
    if intPart.isEmpty && fracPart.isEmpty then none
    else
      match (if intPart.isEmpty then some 0 else digitsToNat intPart),
            (if fracPart.isEmpty then some 0 else digitsToNat fracPart) with
      | some ip, some fp =>
        some (Rat.divInt (ip * 10 ^ fracPart.length + fp) (10 ^ fracPart.length))
      | _, _ => none
  | _ => none

/-- Numeric parsing of one cell value as performed by
`pd.to_numeric(..., errors="coerce")`: decimal numerals with optional sign
and fraction; anything else is unparsable and yields `none` (coerced to
missing, `NaN`). -/
def parseNumeric (s : String) : Option ℚ :=
  match trimChars s.toList with
  | '-' :: rest => (parseUnsignedQ rest).map (fun q => -q)
  | '+' :: rest => parseUnsignedQ rest
  | cs => parseUnsignedQ cs

/-- Whether the subsequent `astype("Int64")` cast succeeds on the column:
every value that parses as numeric must be an integer, since pandas refuses
to cast a non-equivalent float to `Int64`. -/
def int64CastOk (cells : List (Option String)) : Bool :=
  (cells.map (fun c => c.bind parseNumeric)).all
    (fun q => match q with
      | none => true
      | some v => v.den == 1)

/-- `pd.to_numeric(col, errors="coerce").astype("Int64")` on one column:
unparsable or missing values become `NA` without raising, but the `Int64`
cast raises — `TypeError: cannot safely cast non-equivalent float64 to
int64` — when some value parses to a non-integral number. -/
def to_numeric_int64 (cells : List (Option String)) : Except String (List (Option Int)) :=
  if int64CastOk cells then
    .ok ((cells.map (fun c => c.bind parseNumeric)).map (fun q => q.map (fun v => v.num)))
  else
    .error "cast"

/-- Calendar validity check used by the date parser; a date is
`(year, month, day)`. -/
def mkDate (y m d : Nat) : Option (Nat × Nat × Nat) :=
  if 1 ≤ m ∧ m ≤ 12 ∧ 1 ≤ d ∧ d ≤ 31 then some (y, m, d) else none

/-- Per-element tolerant date parsing of
`pd.to_datetime(..., format='mixed')`: slash dates `a/b/c` with a four-digit
year (month-first unless the first field exceeds 12, mirroring the pandas
fallback) and ISO dates `y-m-d`. -/
def parseDateMixed (s : String) : Option (Nat × Nat × Nat) :=
  match splitOnChar '/' (trimChars s.toList) with
  | [a, b, c] =>
    match digitsToNat a, digitsToNat b, digitsToNat c with
    | some x, some y, some z =>
      if c.length = 4 then (if x ≤ 12 then mkDate z x y else mkDate z y x) else none
    | _, _, _ => none
  | _ =>
    match splitOnChar '-' (trimChars s.toList) with
    | [a, b, c] =>
      match digitsToNat a, digitsToNat b, digitsToNat c with
      | some y, some m, some d => if a.length = 4 then mkDate y m d else none
      | _, _, _ => none
    | _ => none

/-- Whether one cell survives date parsing: a missing value becomes `NaT`
without raising, a present value must parse under some supported format. -/
def dateCellOk (c : Option String) : Bool :=
  match c with
  | none => true
  | some s => (parseDateMixed s).isSome

/-- `pd.to_datetime(col, format='mixed')` on one column: the default
`errors='raise'` makes any unparsable value a hard failure. -/
def to_datetime_mixed (cells : List (Option String)) :
    Except String (List (Option (Nat × Nat × Nat))) :=
  if cells.all dateCellOk then
    .ok (cells.map (fun c => c.bind parseDateMixed))
  else
    .error "ParseError"

/-- Full English month name (`Date.dt.strftime('%B')`). -/
def monthName (m : Nat) : String :=
  ["January", "February", "March", "April", "May", "June", "July", "August",
   "September", "October", "November", "December"].getD (m - 1) ""

/-- Day of the week by Zeller's congruence; 0 is Saturday. -/
def dayOfWeekZeller (date : Nat × Nat × Nat) : Nat :=
  let yy := if date.2.1 ≤ 2 then date.1 - 1 else date.1
  let mm := if date.2.1 ≤ 2 then date.2.1 + 12 else date.2.1
  (date.2.2 + (13 * (mm + 1)) / 5 + yy % 100 + yy % 100 / 4 + yy / 100 / 4 + 5 * (yy / 100)) % 7

/-- Full English weekday name (`Date.dt.strftime('%A')`). -/
def dayName (date : Nat × Nat × Nat) : String :=
  ["Saturday", "Sunday", "Monday", "Tuesday", "Wednesday", "Thursday",
   "Friday"].getD (dayOfWeekZeller date) ""

/-- Zero-padded two-digit rendering of a month or day number. -/
def pad2 (n : Nat) : String := if n < 10 then "0" ++ toString n else toString n

/-- Canonical rendering of a parsed date, `YYYY-MM-DD`. -/
def isoDate (date : Nat × Nat × Nat) : String :=
  toString date.1 ++ "-" ++ pad2 date.2.1 ++ "-" ++ pad2 date.2.2

/-- Column assignment `df[c] = vals`: overwrite in place when the column
exists, otherwise append it as the last column. -/
def setCol (df : DF) (c : String) (vals : List (Option String)) : DF :=
  if c ∈ df.cols then
    { cols := df.cols,
      rows := (df.rows.zip vals).map (fun p => p.1.set (colIdx df.cols c) p.2) }
  else
    { cols := df.cols ++ [c], rows := (df.rows.zip vals).map (fun p => p.1 ++ [p.2]) }

/-- `col.astype(str).str.strip()`: every cell becomes a present,
whitespace-trimmed string; a missing value is rendered as the literal
`"nan"`. -/
def astypeStrStrip (cells : List (Option String)) : List (Option String) :=
  cells.map (fun c =>
    some (String.mk (trimChars (match c with
      | some s => s.toList
      | none => "nan".toList))))

/-- Step 3 string standardization: for each declared string column present
in the table, coerce to text and trim. -/
def applyStringCols (cols : List String) (df : DF) : DF :=
  cols.foldl (fun acc c =>
    if c ∈ acc.cols then setCol acc c (astypeStrStrip (colCells acc c)) else acc) df

/-- Step 3 numeric standardization: for each declared numeric column present
in the table, apply the coerce-then-cast conversion, propagating its
failure. -/
def applyNumericCols : List String → DF → Except String DF
  | [], df => .ok df
  | c :: rest, df =>
    if c ∈ df.cols then
      match to_numeric_int64 (colCells df c) with
      | .error e => .error e
      | .ok vals =>
        applyNumericCols rest (setCol df c (vals.map (fun v => v.map (fun n => toString n))))
    else
      applyNumericCols rest df

/-- `DataCleaning.declare_dtypes_early` (Step 3): parse the date column
(hard failure on an unparsable date), derive `Month`, `Year` and `Day`,
standardize the declared string columns, then the declared numeric columns.
A table without a `Date` column raises (`KeyError`, wrapped into the
`CustomException`). -/
def declare_dtypes_early (df : DF) : Except String DF :=
  if "Date" ∈ df.cols then
    match to_datetime_mixed (colCells df "Date") with
    | .error e => .error e
    | .ok dates =>
      let df1 := setCol df "Date" (dates.map (fun d => d.map isoDate))
      let df2 := setCol df1 "Month" (dates.map (fun d => d.map (fun x => monthName x.2.1)))
      let df3 := setCol df2 "Year" (dates.map (fun d => d.map (fun x => toString x.1)))
      let df4 := setCol df3 "Day" (dates.map (fun d => d.map (fun x => dayName x)))
      applyNumericCols numericColumns (applyStringCols stringColumns df4)
  else
    .error "KeyError"

/-- The cleaning pipeline as run by the script's main block: Step 1, Step 2,
Step 3; its output is what gets persisted. -/
def cleaning_pipeline (catalog : List (String × String)) (df : DF) (threshold : ℚ) :
    Except String DF :=
  match handle_missing_data (remove_betting_features catalog df) threshold with
  | .error e => .error e
  | .ok b => declare_dtypes_early b

/-- `DatabaseInsertion.COLUMN_ORDER`: the canonical column order of the
target schema, surrogate key excluded. -/
def COLUMN_ORDER : List String :=
  ["Date", "HomeTeam", "AwayTeam", "FTHG", "FTAG", "FTR",
   "HTHG", "HTAG", "HTR", "Referee", "HomeShots", "AwayShots",
   "HST", "AST", "HF", "AF", "HC", "AC", "HY", "AY", "HR", "AR",
   "Month", "Year", "Day"]

/-- `DatabaseInsertion.COLUMN_RENAMES`: abbreviated shot-count columns to
canonical names. -/
def COLUMN_RENAMES : List (String × String) :=
  [("HS", "HomeShots"), ("AS", "AwayShots")]

/-- Effect of `data.rename(columns=COLUMN_RENAMES)` on one column name. -/
def renameCol (c : String) : String :=
  match COLUMN_RENAMES.find? (fun e => e.1 == c) with
  | some e => e.2
  | none => c

/-- The table after the rename step of `prepare_data`. -/
def renamedDF (df : DF) : DF :=
  { cols := df.cols.map renameCol, rows := df.rows }

/-- `available_columns = [col for col in COLUMN_ORDER if col in data.columns]`
after the rename. -/
def availableColumns (df : DF) : List String :=
  COLUMN_ORDER.filter (fun c => decide (c ∈ (renamedDF df).cols))

/-- The reordered table `data[available_columns]`. -/
def preparedDF (df : DF) : DF :=
  selectCols (renamedDF df) (availableColumns df)

/-- `DatabaseInsertion.prepare_data`: rename, project to the ordered
intersection with the canonical order, fail when no column survives,
otherwise return the prepared table and its rows as positional tuples. -/
def prepare_data (df : DF) : Except String (DF × List (List (Option String))) :=
  if (availableColumns df).length = 0 then
    .error "No valid columns found in DataFrame"
  else
    .ok (preparedDF df, (preparedDF df).rows)

/-- The column list of the parameterized insert statement:
`[col.lower() for col in data.columns]` over the prepared table. -/
def insertColumnList (df : DF) : List String :=
  df.cols.map lowerStr

/-- The insert statement text built by `insert_data`. -/
def insert_query (df : DF) : String :=
  "INSERT INTO epl_data (" ++ String.intercalate ", " (insertColumnList df) ++
    ") VALUES (" ++ String.intercalate ", " ((insertColumnList df).map (fun _ => "%s")) ++ ")"

/-- State of the database connection: rows already committed (visible to any
observer of the target relation) and writes pending inside the open
transaction. -/
structure PgConn where
  committed : List (List (Option String))
  pending : List (List (Option String))
deriving DecidableEq

/-- `psycopg2.extras.execute_batch`: applies the tuples to the open
transaction; when a failure occurs partway through (modelled by
`failAt = some k`), the statements already executed remain pending and the
failure is reported. -/
def execute_batch (conn : PgConn) (tuples : List (List (Option String)))
    (failAt : Option Nat) : PgConn × Bool :=
  match failAt with
  | none => ({ conn with pending := conn.pending ++ tuples }, true)
  | some k => ({ conn with pending := conn.pending ++ tuples.take k }, false)

/-- `conn.commit()`: pending writes become visible. -/
def commitTx (conn : PgConn) : PgConn :=
  { committed := conn.committed ++ conn.pending, pending := [] }

/-- `conn.rollback()`: pending writes are discarded. -/
def rollbackTx (conn : PgConn) : PgConn :=
  { committed := conn.committed, pending := [] }

/-- `DatabaseInsertion.insert_data`: execute the batch inside the
transaction; on success commit exactly once and return the row count; on any
failure roll back before the wrapped error propagates.  Returns the final
connection state, the number of commits performed, and the outcome. -/
def insert_data (conn : PgConn) (tuples : List (List (Option String)))
    (failAt : Option Nat) : PgConn × Nat × Except String Nat :=
  match execute_batch conn tuples failAt with
  | (c1, true) => (commitTx c1, 1, .ok tuples.length)
  | (c1, false) => (rollbackTx c1, 0, .error "InsertError")

/-- Raw table with an abbreviated `HS` column for the persistence claims. -/
def dfC8 : DF := { cols := ["HS", "FTHG"], rows := [[some "5", some "2"]] }

/-- Connection state with one previously committed row and no open
transaction. -/
def connC9 : PgConn := { committed := [[some "old"]], pending := [] }

/-- Two-row batch for the atomicity claim. -/
def tuplesC9 : List (List (Option String)) := [[some "r1"], [some "r2"]]

/-- Feature catalog marking the five critical columns as non-betting. -/
def catalogC1 : List (String × String) :=
  [("HomeTeam", "False"), ("AwayTeam", "False"), ("Date", "False"),
   ("FTHG", "False"), ("FTAG", "False")]

/-- One-row table whose `FTHG` value is present but non-numeric. -/
def dfC1 : DF :=
  { cols := ["HomeTeam", "AwayTeam", "Date", "FTHG", "FTAG"],
    rows := [[some "Arsenal", some "Chelsea", some "14/08/2021", some "x", some "0"]] }

/-- Pipeline output on `dfC1`: the non-numeric `FTHG` value has been coerced
to missing by Step 3, although the row passed Step 2 with no missing
critical value. -/
def outC1 : DF :=
  { cols := ["HomeTeam", "AwayTeam", "Date", "FTHG", "FTAG", "Month", "Year", "Day"],
    rows := [[some "Arsenal", some "Chelsea", some "2021-08-14", none, some "0",
      some "August", some "2021", some "Saturday"]] }

/-- Example table for the sparse-column threshold: 20 rows; column `A` has 3
missing values (15%), `B` has 2 (10%), `C` has 1 (5%). -/
def dfC2 : DF :=
  { cols := ["A", "B", "C"],
    rows := (List.range 20).map (fun i =>
      [if i < 3 then none else some "a",
       if i < 2 then none else some "b",
       if i < 1 then none else some "c"]) }

/-- Example table for stage B failure: the critical column `Date` is missing
in 1 of 2 rows (50% > 10%). -/
def dfC10 : DF :=
  { cols := ["HomeTeam", "AwayTeam", "Date", "FTHG", "FTAG"],
    rows := [[some "Arsenal", some "Chelsea", none, some "0", some "1"],
             [some "Leeds", some "Everton", some "01/02/2020", some "0", some "1"]] }

/-- Example table for stage B success: `HomeTeam` is missing in 1 of 10 rows
(exactly 10%, retained at the threshold), and that row is pruned. -/
def dfC1W : DF :=
  { cols := ["HomeTeam", "AwayTeam", "Date", "FTHG", "FTAG"],
    rows := (List.range 10).map (fun i =>
      [if i = 0 then none else some "T1", some "T2", some "01/02/2020",
       some "1", some "2"]) }

/-- Expected stage B output on `dfC1W`: the row with the missing `HomeTeam`
is gone, the other nine survive unchanged. -/
def outC1W : DF :=
  { cols := ["HomeTeam", "AwayTeam", "Date", "FTHG", "FTAG"],
    rows := (List.range 9).map (fun _ =>
      [some "T1", some "T2", some "01/02/2020", some "1", some "2"]) }

theorem missingPercent_eq (df : DF) (c : String) :
    missingPercent df c = ((missingCount df c : ℚ) / (df.rows.length : ℚ)) * 100 := by
  rw [missingPercent, Rat.divInt_eq_div]
  push_cast
  ring

theorem mem_dropSparseColumns (df : DF) (t : ℚ) (c : String) :
    c ∈ (dropSparseColumns df t).cols ↔ c ∈ df.cols ∧ ¬ missingPercent df c > t := by
  simp [dropSparseColumns, selectCols, List.mem_filter]

/-- C2: in stage B, with threshold `t`, exactly the columns whose
missing-value percentage `(count / len) * 100` strictly exceeds `t` are
dropped; a column whose percentage equals `t` (or is below it) is
retained. -/
theorem sparse_column_threshold (df : DF) (t : ℚ) (c : String) (hc : c ∈ df.cols) :
    c ∉ (dropSparseColumns df t).cols ↔
      ((missingCount df c : ℚ) / (df.rows.length : ℚ)) * 100 > t := by
  rw [mem_dropSparseColumns, ← missingPercent_eq]
  simp [hc]

/-- Witness for C2 on a concrete 20-row table: the 15%-missing column `A` is
dropped at threshold 10, the 10%- and 5%-missing columns `B` and `C` are
retained. -/
theorem sparse_column_threshold_witness :
    "A" ∉ (dropSparseColumns dfC2 10).cols ∧
      "B" ∈ (dropSparseColumns dfC2 10).cols ∧
      "C" ∈ (dropSparseColumns dfC2 10).cols := by
  refine ⟨(sparse_column_threshold dfC2 10 "A" (by decide)).mpr ?_, by decide, by decide⟩
  have h3 : missingCount dfC2 "A" = 3 := by decide
  have h20 : dfC2.rows.length = 20 := by decide
  rw [h3, h20]
  norm_num

/-- C1 (amended): whenever stage B returns a table, that table consists of
exactly the sparse-column-pruned input rows that have a value in every
critical column — offending rows are dropped, never repaired — and every
surviving row is non-missing in all five critical columns. -/
theorem handle_missing_data_ok (df : DF) (t : ℚ) (out : DF)
    (h : handle_missing_data df t = .ok out) :
    out.cols = (dropSparseColumns df t).cols ∧
      out.rows = (dropSparseColumns df t).rows.filter
        (fun row => rowCriticalOk (dropSparseColumns df t).cols row) ∧
      ∀ row ∈ out.rows, ∀ c ∈ criticalColumns, (cellAt out.cols row c).isSome = true := by
  rw [handle_missing_data] at h
  by_cases hcond : criticalColumns.all
      (fun c => decide (c ∈ (dropSparseColumns df t).cols)) = true
  · rw [if_pos hcond] at h
    cases h
    refine ⟨rfl, rfl, ?_⟩
    intro row hrow c hcrit
    have hmem := List.mem_filter.mp hrow
    exact List.all_eq_true.mp hmem.2 c hcrit
  · rw [if_neg hcond] at h
    cases h

/-- Witness for C1 on a concrete 10-row table: stage B keeps the 10%-missing
critical column and returns exactly the nine rows with no missing critical
value. -/
theorem handle_missing_data_ok_witness :
    outC1W.rows = (dropSparseColumns dfC1W 10).rows.filter
      (fun row => rowCriticalOk (dropSparseColumns dfC1W 10).cols row) :=
  (handle_missing_data_ok dfC1W 10 outC1W (by rfl)).2.1

/-- C10: if some critical column's missing percentage strictly exceeds the
sparse-column threshold, stage B fails (the sparse drop removes the column
and the critical-row pruning then raises) instead of returning a table. -/
theorem handle_missing_data_sparse_critical (df : DF) (t : ℚ) (c : String)
    (hcrit : c ∈ criticalColumns)
    (hm : ((missingCount df c : ℚ) / (df.rows.length : ℚ)) * 100 > t) :
    handle_missing_data df t = .error "KeyError" := by
  rw [handle_missing_data]
  rw [if_neg]
  intro hall
  have hmem : c ∈ (dropSparseColumns df t).cols := by
    have := List.all_eq_true.mp hall c hcrit
    simpa using this
  rw [mem_dropSparseColumns, missingPercent_eq] at hmem
  exact hmem.2 hm

/-- Witness for C10: a table whose critical `Date` column is 50% missing
makes stage B fail at threshold 10. -/
theorem handle_missing_data_sparse_critical_witness :
    handle_missing_data dfC10 10 = .error "KeyError" := by
  refine handle_missing_data_sparse_critical dfC10 10 "Date" (by decide) ?_
  have h1 : missingCount dfC10 "Date" = 1 := by decide
  have h2 : dfC10.rows.length = 2 := by decide
  rw [h1, h2]
  norm_num

theorem mem_uniqueKeepFirst (c : String) (seen l : List String) :
    c ∈ uniqueKeepFirst seen l ↔ c ∈ l ∧ c ∉ seen := by
  induction l generalizing seen with
  | nil => simp [uniqueKeepFirst]
  | cons x xs ih =>
    by_cases hx : x ∈ seen
    · rw [uniqueKeepFirst, if_pos hx, ih]
      by_cases hcx : c = x
      · subst hcx
        simp [hx]
      · simp [List.mem_cons, hcx]
    · rw [uniqueKeepFirst, if_neg hx]
      by_cases hcx : c = x
      · subst hcx
        simp [hx]
      · simp [List.mem_cons, hcx, ih]

/-- C3: stage A retains exactly the input columns that appear in the feature
catalog with a betting-odd flag whose case-normalized string form is
`"false"`; columns absent from the catalog, or carrying any other flag in
any textual case, are dropped. -/
theorem betting_feature_filter (catalog : List (String × String)) (df : DF) (c : String) :
    c ∈ (remove_betting_features catalog df).cols ↔
      c ∈ df.cols ∧ ∃ e ∈ catalog, e.1 = c ∧ lowerStr e.2 = "false" := by
  simp only [remove_betting_features, selectCols, List.mem_filter, keepFeatureNames,
    mem_uniqueKeepFirst, List.mem_map, List.mem_filter, decide_eq_true_eq,
    List.not_mem_nil, not_false_iff, and_true, beq_iff_eq]
  constructor
  · rintro ⟨hdf, e, ⟨he, hflag⟩, hname⟩
    exact ⟨hdf, e, he, hname, hflag⟩
  · rintro ⟨hdf, e, he, hname, hflag⟩
    exact ⟨hdf, e, ⟨he, hflag⟩, hname⟩

theorem flatten_getElem {α : Type} (ls : List (List α)) (i j : Nat) (l : List α) (a : α)
    (hi : ls[i]? = some l) (hj : l[j]? = some a) :
    ls.flatten[((ls.take i).map List.length).sum + j]? = some a := by
  induction ls generalizing i with
  | nil => simp at hi
  | cons hd tl ih =>
    cases i with
    | zero =>
      simp only [List.getElem?_cons_zero, Option.some.injEq] at hi
      rw [← hi] at hj
      have hlt : j < hd.length := by
        by_contra hge
        rw [List.getElem?_eq_none (Nat.le_of_not_lt hge)] at hj
        cases hj
      simpa [List.flatten_cons, List.getElem?_append_left hlt] using hj
    | succ n =>
      simp only [List.getElem?_cons_succ] at hi
      have hrec := ih n hi
      have hle : hd.length ≤ hd.length + ((((tl.take n).map List.length).sum) + j) :=
        Nat.le_add_right _ _
      calc (hd :: tl).flatten[(((hd :: tl).take (n + 1)).map List.length).sum + j]?
          = (hd ++ tl.flatten)[hd.length + ((((tl.take n).map List.length).sum) + j)]? := by
            simp [List.flatten_cons, List.take_succ_cons, Nat.add_assoc]
        _ = tl.flatten[(((tl.take n).map List.length).sum) + j]? := by
            rw [List.getElem?_append_right hle, Nat.add_sub_cancel_left]
        _ = some a := hrec

/-- C4 (amended): `combine_dataframes` concatenates the fetched tables
preserving row order within each source and source order across sources, and
drops the legacy `Div` column when it is present; when `Div` is absent from
the concatenation, the call fails (the unguarded `drop('Div', axis=1)`
raises) instead of returning the plain concatenation. -/
theorem combine_dataframes_spec (dfs : List DF) (i j : Nat) (df : DF)
    (row : List (Option String)) (hi : dfs[i]? = some df) (hj : df.rows[j]? = some row) :
    (concatDF dfs).rows[rowsBefore dfs i + j]? =
        some ((unionCols dfs).map (fun c => cellAt df.cols row c)) ∧
      ("Div" ∈ (concatDF dfs).cols →
        combine_dataframes dfs =
          .ok (selectCols (concatDF dfs)
            ((concatDF dfs).cols.filter (fun c => decide (c ≠ "Div"))))) ∧
      ("Div" ∉ (concatDF dfs).cols → combine_dataframes dfs = .error "KeyError") := by
  refine ⟨?_, ?_, ?_⟩
  · have h1 : (dfs.map (fun d =>
        d.rows.map (fun r => (unionCols dfs).map (fun c => cellAt d.cols r c))))[i]? =
        some (df.rows.map (fun r => (unionCols dfs).map (fun c => cellAt df.cols r c))) := by
      rw [List.getElem?_map, hi]
      rfl
    have h2 : (df.rows.map (fun r => (unionCols dfs).map (fun c => cellAt df.cols r c)))[j]? =
        some ((unionCols dfs).map (fun c => cellAt df.cols row c)) := by
      rw [List.getElem?_map, hj]
      rfl
    have h3 := flatten_getElem _ i j _ _ h1 h2
    have h4 : (((dfs.map (fun d =>
        d.rows.map (fun r => (unionCols dfs).map (fun c => cellAt d.cols r c)))).take i).map
          List.length).sum = rowsBefore dfs i := by
      rw [rowsBefore, ← List.map_take, List.map_map]
      congr 1
      congr 1
      simp [Function.comp_def]
    rw [h4] at h3
    exact h3
  · intro h
    simp only [combine_dataframes, if_pos h]
  · intro h
    simp only [combine_dataframes, if_neg h]

/-- Witness for C4 on a one-table, one-row input: the concatenated table
holds that row, aligned to the union of the columns, at offset zero. -/
theorem combine_dataframes_spec_witness :
    (concatDF dfsC4).rows[rowsBefore dfsC4 0 + 0]? =
      some ((unionCols dfsC4).map (fun c => cellAt ["A"] [some "1"] c)) :=
  (combine_dataframes_spec dfsC4 0 0 { cols := ["A"], rows := [[some "1"]] }
    [some "1"] (by rfl) (by rfl)).1

/-- Counterexample for C4 as stated: on a fetched table with no `Div`
column, the union does not succeed — `combine_dataframes` raises instead of
returning the plain concatenation. -/
theorem combine_dataframes_counterexample :
    combine_dataframes dfsC4 = .error "KeyError" := by rfl

/-- C5 (amended): `load_csv` fails with the tagged `CustomException` when
the source-catalog resource exists but cannot be read; when the resource is
missing it fails with an untagged `NameError` (the post-`try` `return urls`
references an unbound local), not with a tagged error. -/
theorem load_csv_spec (urls : DF) (e : String) (r : Except String DF) :
    load_csv true (.ok urls) = .ok urls ∧
      load_csv true (.error e) = .tagged e ∧
      load_csv false r = .untagged "NameError" :=
  ⟨rfl, rfl, rfl⟩

/-- Counterexample for C5 as stated: with the catalog resource missing,
`load_csv` raises an untagged `NameError` rather than a tagged
`SourceCatalogError`-style failure. -/
theorem load_csv_counterexample :
    load_csv false (.ok dfC5) = .untagged "NameError" := rfl

/-- C6 (amended): in the numeric standardization, every value that cannot be
parsed as numeric is coerced to missing in the nullable-integer column, and
for columns whose parseable values are all integral the conversion succeeds
without raising; but when some value parses to a non-integral number the
conversion raises (the `Int64` cast fails), so it does not hold that the
coercion never raises for any input value. -/
theorem to_numeric_coercion (cells : List (Option String)) :
    (int64CastOk cells = true →
      to_numeric_int64 cells =
        .ok (cells.map (fun c => (c.bind parseNumeric).map (fun v => v.num)))) ∧
      (int64CastOk cells = false → to_numeric_int64 cells = .error "cast") := by
  constructor
  · intro h
    rw [to_numeric_int64, if_pos h, List.map_map]
    rfl
  · intro h
    rw [to_numeric_int64, if_neg (by simp [h])]

/-- Witness for C6: the unparsable value `"abc"` is coerced to missing while
`"3"` converts, and the non-integral `"2.5"` makes the conversion raise. -/
theorem to_numeric_coercion_witness :
    to_numeric_int64 [some "abc", some "3"] = .ok [none, some 3] ∧
      to_numeric_int64 [some "2.5"] = .error "cast" :=
  ⟨((to_numeric_coercion [some "abc", some "3"]).1 (by rfl)).trans (by rfl),
   (to_numeric_coercion [some "2.5"]).2 (by rfl)⟩

/-- Counterexample for C6 as stated: the value `"2.5"` parses as numeric but
is not integral, and the coercion raises on it instead of never raising. -/
theorem to_numeric_counterexample :
    to_numeric_int64 [some "2.5"] = .error "cast" := by rfl

/-- C7: date parsing accepts multiple textual formats, and a table column
containing at least one date value that parses under no supported format
makes the stage raise — the unparsable date is never coerced to missing: in
every successfully returned column, each present input value maps to a
parsed date. -/
theorem date_parsing_spec (cells : List (Option String)) :
    parseDateMixed "14/08/2021" = some (2021, 8, 14) ∧
      parseDateMixed "2021-08-14" = some (2021, 8, 14) ∧
      (cells.any (fun c => !(dateCellOk c)) = true →
        to_datetime_mixed cells = .error "ParseError") ∧
      (∀ out : List (Option (Nat × Nat × Nat)), to_datetime_mixed cells = .ok out →
        ∀ (i : Nat) (s : String), cells[i]? = some (some s) →
          ∃ d : Nat × Nat × Nat, out[i]? = some (some d)) := by
  refine ⟨by rfl, by rfl, ?_, ?_⟩
  · intro h
    obtain ⟨c, hc, hpred⟩ := List.any_eq_true.mp h
    rw [Bool.not_eq_true'] at hpred
    rw [to_datetime_mixed, if_neg]
    intro hall
    rw [List.all_eq_true.mp hall c hc] at hpred
    cases hpred
  · intro out hok i s hcell
    rw [to_datetime_mixed] at hok
    split at hok
    case isTrue hall =>
      obtain ⟨hlt, hgeq⟩ := List.getElem?_eq_some.mp hcell
      have hmem : (some s : Option String) ∈ cells := hgeq ▸ List.getElem_mem hlt
      have hck := List.all_eq_true.mp hall _ hmem
      rw [dateCellOk] at hck
      obtain ⟨d, hd⟩ := Option.isSome_iff_exists.mp hck
      cases hok
      refine ⟨d, ?_⟩
      rw [List.getElem?_map, hcell]
      simp [hd]
    case isFalse => cases hok

/-- Witness for C7: a column holding the unparsable value `"nonsense"` makes
the date-standardization raise. -/
theorem date_parsing_spec_witness :
    to_datetime_mixed [some "nonsense"] = .error "ParseError" :=
  (date_parsing_spec [some "nonsense"]).2.2.1 (by rfl)

/-- Counterexample for C1 as stated: on a table whose `FTHG` value is the
non-null string `"x"`, the full cleaning pipeline succeeds and persists a
row whose critical column `FTHG` is missing — Step 3's numeric coercion
reintroduced the null after Step 2 pruned none. -/
theorem cleaning_pipeline_counterexample :
    cleaning_pipeline catalogC1 dfC1 10 = .ok outC1 ∧
      "FTHG" ∈ criticalColumns ∧
      cellAt outC1.cols (outC1.rows.getD 0 []) "FTHG" = none :=
  ⟨by rfl, by decide, by rfl⟩

theorem colIdx_getElem (keep : List String) (c : String) (h : c ∈ keep) :
    keep[colIdx keep c]? = some c := by
  induction keep with
  | nil => simp at h
  | cons x xs ih =>
    rw [colIdx]
    by_cases hx : x = c
    · rw [if_pos hx, hx]
      simp
    · rw [if_neg hx, List.getElem?_cons_succ]
      exact ih (by
        rcases List.mem_cons.mp h with rfl | hxs
        · exact absurd rfl hx
        · exact hxs)

theorem cellAt_map (keep : List String) (f : String → Option String) (c : String)
    (h : c ∈ keep) : cellAt keep (keep.map f) c = f c := by
  rw [cellAt, List.getElem?_map, colIdx_getElem keep c h]
  rfl

theorem renameCol_eq_HomeShots (x : String) :
    renameCol x = "HomeShots" ↔ x = "HS" ∨ x = "HomeShots" := by
  rcases eq_or_ne x "HS" with rfl | h1
  · decide
  · rcases eq_or_ne x "AS" with rfl | h2
    · decide
    · have hnone : COLUMN_RENAMES.find? (fun e => e.1 == x) = none := by
        rw [List.find?_eq_none]
        intro e he
        rcases List.mem_cons.mp he with rfl | he2
        · simpa using fun h => h1 h.symm
        · rcases List.mem_cons.mp he2 with rfl | he3
          · simpa using fun h => h2 h.symm
          · simp at he3
      rw [renameCol, hnone]
      simp [h1]

theorem colIdx_rename_HS (cols : List String) (hHS : "HS" ∈ cols)
    (hNo : "HomeShots" ∉ cols) :
    colIdx (cols.map renameCol) "HomeShots" = colIdx cols "HS" := by
  induction cols with
  | nil => simp at hHS
  | cons x xs ih =>
    rw [List.map_cons, colIdx, colIdx]
    by_cases hx : x = "HS"
    · rw [if_pos (by rw [hx]; rfl), if_pos hx]
    · have hxr : renameCol x ≠ "HomeShots" := by
        intro hcon
        rcases (renameCol_eq_HomeShots x).mp hcon with h | h
        · exact hx h
        · exact hNo (by rw [← h]; exact List.mem_cons_self x xs)
      rw [if_neg hxr, if_neg hx,
        ih (by
          rcases List.mem_cons.mp hHS with h | h
          · exact absurd h.symm hx
          · exact h)
          (fun hmem => hNo (List.mem_cons_of_mem x hmem))]

/-- C8: `prepare_data` first applies the canonical rename map and then
projects to the ordered intersection of the canonical column order and the
prepared table's columns, so the insert statement's column list is exactly
that intersection, lowercased, in canonical order — it never names a column
absent from the prepared table — and the raw `HS` value of each row appears
at the `HomeShots` slot of its tuple. -/
theorem prepare_and_insert_columns (df : DF) (hHS : "HS" ∈ df.cols)
    (hNoHS : "HomeShots" ∉ df.cols) :
    prepare_data df = .ok (preparedDF df, (preparedDF df).rows) ∧
      (preparedDF df).cols =
        COLUMN_ORDER.filter (fun c => decide (c ∈ df.cols.map renameCol)) ∧
      insertColumnList (preparedDF df) =
        (COLUMN_ORDER.filter (fun c => decide (c ∈ df.cols.map renameCol))).map lowerStr ∧
      (∀ c ∈ insertColumnList (preparedDF df), ∃ c0 ∈ (preparedDF df).cols, c = lowerStr c0) ∧
      (preparedDF df).rows = df.rows.map
        (fun row => (availableColumns df).map (fun c => cellAt (df.cols.map renameCol) row c)) ∧
      (∀ row, cellAt (preparedDF df).cols
          ((availableColumns df).map (fun c => cellAt (df.cols.map renameCol) row c))
          "HomeShots" = cellAt df.cols row "HS") := by
  have hmemr : "HomeShots" ∈ df.cols.map renameCol :=
    List.mem_map.mpr ⟨"HS", hHS, rfl⟩
  have hav : "HomeShots" ∈ availableColumns df := by
    rw [availableColumns]
    exact List.mem_filter.mpr ⟨by decide, by simpa [renamedDF] using hmemr⟩
  refine ⟨?_, rfl, rfl, ?_, rfl, ?_⟩
  · rw [prepare_data, if_neg]
    intro h0
    rw [List.length_eq_zero] at h0
    rw [h0] at hav
    simp at hav
  · intro c hc
    obtain ⟨c0, hc0, hlow⟩ := List.mem_map.mp hc
    exact ⟨c0, hc0, hlow.symm⟩
  · intro row
    have h1 := cellAt_map (availableColumns df)
      (fun c => cellAt (df.cols.map renameCol) row c) "HomeShots" hav
    show cellAt (availableColumns df)
      ((availableColumns df).map (fun c => cellAt (df.cols.map renameCol) row c))
      "HomeShots" = cellAt df.cols row "HS"
    rw [h1]
    show cellAt (List.map renameCol df.cols) row "HomeShots" = cellAt df.cols row "HS"
    unfold cellAt
    rw [colIdx_rename_HS df.cols hHS hNoHS]

/-- Witness for C8 on a table with columns `HS, FTHG`: the prepared tuple
carries the raw `HS` value at the `HomeShots` slot. -/
theorem prepare_and_insert_columns_witness :
    cellAt (preparedDF dfC8).cols
        ((availableColumns dfC8).map
          (fun c => cellAt (dfC8.cols.map renameCol) [some "5", some "2"] c))
        "HomeShots" = cellAt dfC8.cols [some "5", some "2"] "HS" :=
  (prepare_and_insert_columns dfC8 (by decide) (by decide)).2.2.2.2.2 [some "5", some "2"]

/-- C9: if the batch insert fails at any point, `insert_data` rolls back
before the error propagates — the target relation holds exactly the rows it
held before the run and nothing was committed; on success it commits exactly
once and all rows become visible. -/
theorem insert_data_atomicity (conn : PgConn) (tuples : List (List (Option String)))
    (failAt : Option Nat) (hpending : conn.pending = []) :
    (∀ k : Nat, failAt = some k →
      (insert_data conn tuples failAt).1.committed = conn.committed ∧
        (insert_data conn tuples failAt).2.1 = 0 ∧
        (insert_data conn tuples failAt).2.2 = .error "InsertError") ∧
      (failAt = none →
        (insert_data conn tuples failAt).1.committed = conn.committed ++ tuples ∧
          (insert_data conn tuples failAt).2.1 = 1 ∧
          (insert_data conn tuples failAt).2.2 = .ok tuples.length) := by
  constructor
  · rintro k rfl
    exact ⟨rfl, rfl, rfl⟩
  · rintro rfl
    refine ⟨?_, rfl, rfl⟩
    simp [insert_data, execute_batch, commitTx, hpending]

/-- Witness for C9: a batch of two rows failing after the first leaves the
previously committed row as the only content of the relation, with zero
commits and the error reported. -/
theorem insert_data_atomicity_witness :
    (insert_data connC9 tuplesC9 (some 1)).1.committed = connC9.committed ∧
      (insert_data connC9 tuplesC9 (some 1)).2.1 = 0 ∧
      (insert_data connC9 tuplesC9 (some 1)).2.2 = .error "InsertError" :=
  (insert_data_atomicity connC9 tuplesC9 (some 1) (by rfl)).1 1 rfl
